import Mathlib

/-!
Verification of the session / token lifecycle core of the internship
management backend (`src/services/auth.service.js`, `src/utils/jwt.util.js`,
`src/middlewares/auth.middleware.js`, `src/models/session.model.js`,
`src/models/user.model.js`).

The JavaScript service is embedded shallowly: the Mongo collections become
explicit lists threaded through each operation, every `await` boundary is a
point where the store state is read or written, and the cryptographic
primitives (JWT signing, SHA-256, bcrypt) are modelled as injective
constructors, since the code only ever observes equality of hashes and
validity of signatures.
-/

namespace AuthCore

/-- JWT payload as produced by `JWTUtil.sign`: `{ sub, sid, role?, type }`
plus the expiry computed from the TTL and the issue time (`iat`, which
`jsonwebtoken` embeds automatically and which makes two mints of the same
payload at different times distinct tokens). -/
structure Claims where
  sub : Nat
  sid : Nat
  role : String
  tokenType : String
  exp : Nat
  iat : Nat
  deriving DecidableEq, Repr

/-- A signed token. `valid` models whether `jwt.verify` accepts the
signature / issuer / audience; every token minted by `JWTUtil.sign` has
`valid = true`, a forged or tampered token has `valid = false`. -/
structure Token where
  claims : Claims
  valid : Bool
  deriving DecidableEq, Repr

/-- Value of `session.refreshTokenHash`: either the `'TEMP'` placeholder
written at session creation, or the SHA-256 of a token.  SHA-256 is modelled
as the injective constructor `ofToken`, since the service only compares
hashes for equality. -/
inductive HashVal where
  | temp
  | ofToken (t : Token)
  deriving DecidableEq, Repr

/-- `config.auth.jwt.accessTTL` default `'15m'`, in milliseconds. -/
def accessTTL : Nat := 15 * 60 * 1000

/-- `config.auth.jwt.refreshTTL` default `'7d'`, in milliseconds. -/
def refreshTTL : Nat := 7 * 24 * 60 * 60 * 1000

/-- `JWTUtil.hashToken`: sha256 of the token string. -/
def hashToken (t : Token) : HashVal := .ofToken t

/-- `JWTUtil.generateRefreshToken({userId, sessionId})`: payload
`{ sub, sid, type: 'refresh' }` signed with `refreshTTL`. -/
def generateRefreshToken (userId sessionId now : Nat) : Token :=
  { claims := { sub := userId, sid := sessionId, role := "",
                tokenType := "refresh", exp := now + refreshTTL, iat := now },
    valid := true }

/-- `JWTUtil.generateAccessToken({userId, role, sessionId})`: payload
`{ sub, sid, role, type: 'access' }` signed with `accessTTL`. -/
def generateAccessToken (userId : Nat) (role : String) (sessionId now : Nat) :
    Token :=
  { claims := { sub := userId, sid := sessionId, role := role,
                tokenType := "access", exp := now + accessTTL, iat := now },
    valid := true }

/-- Errors thrown by the service and the auth middleware, one constructor
per distinct `throw` site message.  `sessionExpired` is the message
`'Session expired'` the code uses both for a missing and for a revoked
session (the spec's `SessionRevoked`).  `typeError` models the JavaScript
`TypeError` raised by reading `user._id` when `User.findById` returned
`null` — an error outside the spec's taxonomy. -/
inductive AuthError where
  | tokenExpired
  | tokenInvalid
  | invalidRefreshToken
  | sessionExpired
  | tokenReuseDetected
  | accessTokenRequired
  | invalidAccessToken
  | userNotAuthorized
  | userNotFound
  | currentPasswordIncorrect
  | invalidResetToken
  | emailSendFailed
  | typeError
  deriving DecidableEq, Repr

/-- `jwt.verify`: rejects a bad signature / issuer / audience
(`JsonWebTokenError`, surfaced as `TokenInvalid`) and an elapsed expiry
(`TokenExpiredError`), otherwise returns the decoded claims. -/
def verifyToken (now : Nat) (t : Token) : Except AuthError Claims :=
  if t.valid = false then .error .tokenInvalid
  else if t.claims.exp ≤ now then .error .tokenExpired
  else .ok t.claims

/-- bcrypt hashing (`PasswordUtil.hashPassword`), modelled as an injective
function on the plaintext: the service only observes
`comparePassword p h = (hashPassword p == h)`. -/
def hashPassword (p : String) : String := p

/-- `PasswordUtil.comparePassword(plain, storedHash)`. -/
def comparePassword (p stored : String) : Bool := hashPassword p == stored

/-- `crypto.createHash('sha256').update(s).digest('hex')`, modelled as an
injective function on the secret string (only hash equality is observed). -/
def sha256Hex (s : String) : String := s

/-- One document of the `Session` collection (`session.model.js`). -/
structure Session where
  id : Nat
  userId : Nat
  refreshTokenHash : HashVal
  isRevoked : Bool
  expiresAt : Nat
  deriving DecidableEq, Repr

/-- One document of the `User` collection (`user.model.js`); only the fields
the session/token core reads or writes. -/
structure UserRec where
  id : Nat
  email : String
  password : String
  role : String
  status : String
  passwordChangedAt : Option Nat
  passwordResetToken : Option String
  passwordResetExpires : Option Nat
  deriving DecidableEq, Repr

/-- The persistent store: the two Mongo collections the core mutates. -/
structure DB where
  users : List UserRec
  sessions : List Session
  deriving DecidableEq, Repr

/-- `Session.findById(sid)`. -/
def findSession (l : List Session) (sid : Nat) : Option Session :=
  l.find? (fun s => s.id == sid)

/-- `session.save()`: writes the in-memory document back over the stored
document with the same `_id` (an unconditional full-document write — no
guard on what the store held in between). -/
def saveSessionL (l : List Session) (sess : Session) : List Session :=
  l.map (fun s => if s.id == sess.id then sess else s)

/-- `User.findById(uid)`. -/
def findUser (l : List UserRec) (uid : Nat) : Option UserRec :=
  l.find? (fun u => u.id == uid)

/-- `user.save()`: unconditional write-back by `_id`. -/
def saveUserL (l : List UserRec) (u : UserRec) : List UserRec :=
  l.map (fun v => if v.id == u.id then u else v)

/-- `Session.updateMany({userId}, {isRevoked: true})`. -/
def revokeAllForUserL (l : List Session) (uid : Nat) : List Session :=
  l.map (fun s => if s.userId == uid then { s with isRevoked := true } else s)

/-- The pair returned by a successful `refreshToken` call. -/
structure TokenPair where
  accessToken : Token
  refreshToken : Token
  deriving DecidableEq, Repr

/-- The check phase of `AuthService.refreshToken` (auth.service.js lines
80–92): verify the presented token, require type `refresh`, load the
session by the embedded `sid`, fail `'Session expired'` when missing or
revoked, then compare the stored `refreshTokenHash` with the hash of the
presented token; on mismatch revoke the session (`isRevoked = true`,
`session.save()`) and fail `'Token reuse detected'`. -/
def rotateCheck (db : DB) (now : Nat) (t : Token) :
    (Except AuthError Session) × DB :=
  match verifyToken now t with
  | .error e => (.error e, db)
  | .ok decoded =>
    if decoded.tokenType ≠ "refresh" then (.error .invalidRefreshToken, db)
    else
      match findSession db.sessions decoded.sid with
      | none => (.error .sessionExpired, db)
      | some session =>
        if session.isRevoked then (.error .sessionExpired, db)
        else if session.refreshTokenHash ≠ hashToken t then
          (.error .tokenReuseDetected,
           { db with sessions :=
               saveSessionL db.sessions { session with isRevoked := true } })
        else (.ok session, db)

/-- The write phase of `AuthService.refreshToken` (lines 94–108): mint the
new refresh token bound to the same session, overwrite
`session.refreshTokenHash` with its hash via `session.save()` — an
unconditional write of the in-memory document, with no condition on the
previously read hash — then load the user and mint the access token.
`User.findById` has no null check: `user._id` on a missing user raises a
`TypeError` after the hash was already replaced. -/
def rotateFinish (db : DB) (now : Nat) (sub : Nat) (session : Session) :
    (Except AuthError TokenPair) × DB :=
  let newRefreshToken := generateRefreshToken sub session.id now
  let newSession := { session with refreshTokenHash := hashToken newRefreshToken }
  let db1 := { db with sessions := saveSessionL db.sessions newSession }
  match findUser db1.users sub with
  | none => (.error .typeError, db1)
  | some user =>
      (.ok { accessToken := generateAccessToken user.id user.role session.id now,
             refreshToken := newRefreshToken }, db1)

/-- `AuthService.refreshToken(oldToken)` run to completion at time `now`
(the check phase immediately followed by the write phase, i.e. no
interleaved writer between the two `await`s). -/
def refreshTokenImpl (db : DB) (now : Nat) (t : Token) :
    (Except AuthError TokenPair) × DB :=
  match rotateCheck db now t with
  | (.error e, db1) => (.error e, db1)
  | (.ok session, db1) => rotateFinish db1 now t.claims.sub session

/-- `AuthService.logout(sessionId)`:
`Session.findByIdAndUpdate(sessionId, { isRevoked: true })`. -/
def logoutF (sessionId : Nat) (s : Session) : Session :=
  if s.id == sessionId then { s with isRevoked := true } else s

def logout (db : DB) (sessionId : Nat) : DB :=
  { db with sessions := db.sessions.map (logoutF sessionId) }

/-- The request context `authMiddleware` attaches as `req.user`. -/
structure ReqUser where
  userId : Nat
  role : String
  sessionId : Nat
  deriving DecidableEq, Repr

/-- `authMiddleware` (auth.middleware.js): read the access token cookie,
verify it, require type `access`, load the session (`'Session expired'`
when missing or revoked — note: no check of `expiresAt`), load the user
(`403` when missing or inactive), and attach `req.user`. -/
def authMiddleware (db : DB) (now : Nat) (cookie : Option Token) :
    Except AuthError ReqUser :=
  match cookie with
  | none => .error .accessTokenRequired
  | some t =>
    match verifyToken now t with
    | .error e => .error e
    | .ok decoded =>
      if decoded.tokenType ≠ "access" then .error .invalidAccessToken
      else
        match findSession db.sessions decoded.sid with
        | none => .error .sessionExpired
        | some session =>
          if session.isRevoked then .error .sessionExpired
          else
            match findUser db.users decoded.sub with
            | none => .error .userNotAuthorized
            | some user =>
              if user.status ≠ "active" then .error .userNotAuthorized
              else .ok { userId := user.id, role := user.role,
                         sessionId := session.id }

/-- The `{ success, message }` object the password endpoints resolve with. -/
structure ServiceResponse where
  success : Bool
  message : String
  deriving DecidableEq, Repr

/-- The generic response `forgotPassword` returns on both the
nonexistent-email path and the email-sent path. -/
def genericForgotResponse : ServiceResponse :=
  { success := true,
    message := "If that email exists, a reset link has been sent" }

instance {e a : Type} [DecidableEq e] [DecidableEq a] :
    DecidableEq (Except e a) := fun x y =>
  match x, y with
  | .error e1, .error e2 =>
    if h : e1 = e2 then isTrue (by rw [h]) else isFalse (by simp [h])
  | .error _, .ok _ => isFalse (by simp)
  | .ok _, .error _ => isFalse (by simp)
  | .ok r1, .ok r2 =>
    if h : r1 = r2 then isTrue (by rw [h]) else isFalse (by simp [h])

/-- Outcome of `AuthService.forgotPassword`: the resolved value or thrown
error, the store afterwards, and the artificial `setTimeout` delay the call
awaited (500 ms on the nonexistent-email path, none otherwise). -/
structure ForgotOutcome where
  result : Except AuthError ServiceResponse
  db : DB
  delayMs : Nat
  deriving DecidableEq, Repr

/-- The filter `User.findOne({ email, status: 'active' })`. -/
def emailActiveMatch (email : String) (u : UserRec) : Bool :=
  u.email == email && u.status == "active"

/-- The filter `User.findOne({ passwordResetToken: hashedToken,
passwordResetExpires: { $gt: Date.now() }, status: 'active' })`. -/
def resetMatch (now : Nat) (hashedToken : String) (u : UserRec) : Bool :=
  u.passwordResetToken == some hashedToken
  && (match u.passwordResetExpires with
      | some e => decide (now < e)
      | none => false)
  && u.status == "active"

/-- `AuthService.forgotPassword(email)` (auth.service.js lines 137–179).
`resetSecret` is the hex of `crypto.randomBytes(32)` (the call's
nondeterministic input); `emailOk` is whether
`EmailService.sendPasswordResetEmail` resolves or rejects.  On a missing /
inactive user: await a 500 ms delay and return the generic response.
Otherwise store the SHA-256 of the secret plus a 15-minute expiry on the
user, send the email, and on failure clear both fields again and throw. -/
def forgotPassword (db : DB) (now : Nat) (resetSecret : String)
    (emailOk : Bool) (email : String) : ForgotOutcome :=
  match db.users.find? (emailActiveMatch email) with
  | none => { result := .ok genericForgotResponse, db := db, delayMs := 500 }
  | some user =>
    let hashedToken := sha256Hex resetSecret
    let user1 := { user with
        passwordResetToken := some hashedToken,
        passwordResetExpires := some (now + 15 * 60 * 1000) }
    let db1 := { db with users := saveUserL db.users user1 }
    if emailOk then
      { result := .ok genericForgotResponse, db := db1, delayMs := 0 }
    else
      let user2 := { user1 with
          passwordResetToken := none, passwordResetExpires := none }
      { result := .error .emailSendFailed,
        db := { db1 with users := saveUserL db1.users user2 }, delayMs := 0 }

/-- `AuthService.resetPassword(token, newPassword)` (lines 185–231): find an
active user whose stored `passwordResetToken` equals the SHA-256 of the
presented token and whose `passwordResetExpires` is `$gt` now; on success
replace the password hash, clear both reset fields, bump
`passwordChangedAt`, and revoke every session of the user.  (The
confirmation email is sent in a `try/catch` that swallows failure, so it
has no observable effect on the outcome.) -/
def resetPassword (db : DB) (now : Nat) (token : String)
    (newPassword : String) : (Except AuthError ServiceResponse) × DB :=
  match db.users.find? (resetMatch now (sha256Hex token)) with
  | none => (.error .invalidResetToken, db)
  | some user =>
    let user1 := { user with
        password := hashPassword newPassword,
        passwordResetToken := none,
        passwordResetExpires := none,
        passwordChangedAt := some now }
    let db1 := { db with users := saveUserL db.users user1 }
    let db2 := { db1 with sessions := revokeAllForUserL db1.sessions user.id }
    (.ok { success := true,
           message := "Password reset successful. Please login with your new password." },
     db2)

/-- `AuthService.changePassword(userId, currentPassword, newPassword)`
(lines 236–267): load the user, compare the current password, replace the
hash, bump `passwordChangedAt`, then
`Session.updateMany({ userId, _id: { $ne: user.currentSessionId } },
{ isRevoked: true })`.  `currentSessionId` is not a field of the user
schema and is assigned nowhere in the repository, so its value is
`undefined`; the driver serializes `$ne: undefined` as `$ne: null`, which
every stored `_id` satisfies, so the update matches every session of the
user — the caller's session included. -/
def changePassword (db : DB) (now : Nat) (userId : Nat)
    (currentPassword newPassword : String) :
    (Except AuthError ServiceResponse) × DB :=
  match findUser db.users userId with
  | none => (.error .userNotFound, db)
  | some user =>
    if comparePassword currentPassword user.password = false then
      (.error .currentPasswordIncorrect, db)
    else
      let user1 := { user with
          password := hashPassword newPassword,
          passwordChangedAt := some now }
      let db1 := { db with users := saveUserL db.users user1 }
      let db2 := { db1 with sessions := revokeAllForUserL db1.sessions userId }
      (.ok { success := true, message := "Password changed successfully" }, db2)

/-- The Mongo TTL index `sessionSchema.index({ expiresAt: 1 },
{ expireAfterSeconds: 0 })`: the background sweep erases every session
document whose `expiresAt` has elapsed. -/
def ttlSweep (db : DB) (now : Nat) : DB :=
  { db with sessions := db.sessions.filter (fun s => decide (now < s.expiresAt)) }

/-! ## A concrete store used by witnesses and counterexamples -/

/-- An active student user, password `pw1`, no pending reset. -/
def sampleUser : UserRec :=
  { id := 1, email := "real@x.com", password := hashPassword "pw1",
    role := "student", status := "active", passwordChangedAt := none,
    passwordResetToken := none, passwordResetExpires := none }

/-- The refresh token currently bound to session 5 (minted at time 0). -/
def sampleRefreshTok : Token := generateRefreshToken 1 5 0

/-- A live session of user 1 holding `sampleRefreshTok`'s hash. -/
def sampleSession : Session :=
  { id := 5, userId := 1, refreshTokenHash := hashToken sampleRefreshTok,
    isRevoked := false, expiresAt := 604800000 }

/-- An access token bound to session 5 (minted at time 0). -/
def sampleAccessTok : Token := generateAccessToken 1 "student" 5 0

/-- One user, one live session. -/
def sampleDB : DB := { users := [sampleUser], sessions := [sampleSession] }

/-- A refresh token for session 5 minted at time 1: same session, different
`iat`, so its hash differs from the stored one (a superseded/stale token). -/
def staleTok : Token := generateRefreshToken 1 5 1

/-- A second live session of user 1. -/
def otherSession : Session :=
  { id := 6, userId := 1, refreshTokenHash := hashToken (generateRefreshToken 1 6 0),
    isRevoked := false, expiresAt := 604800000 }

/-- One user with two live sessions (5 is the caller's, 6 another device). -/
def twoSessionDB : DB := { users := [sampleUser], sessions := [sampleSession, otherSession] }

/-- The store of `sampleDB` but with no user record at all: the session is
live and its refresh token matches, yet `User.findById` returns null. -/
def orphanDB : DB := { users := [], sessions := [sampleSession] }

/-- A session whose `expiresAt` (50) has already passed at time 100, still
physically present and not revoked. -/
def expiredSession : Session :=
  { id := 7, userId := 1, refreshTokenHash := hashToken (generateRefreshToken 1 7 0),
    isRevoked := false, expiresAt := 50 }

/-- Refresh token held by the expired session 7. -/
def expiredSessRefreshTok : Token := generateRefreshToken 1 7 0

/-- Access token bound to the expired session 7, itself still unexpired at
time 100 (its own expiry is 900000). -/
def expiredSessAccessTok : Token := generateAccessToken 1 "student" 7 0

/-- One user, one expired-but-present session. -/
def expiredDB : DB := { users := [sampleUser], sessions := [expiredSession] }

/-- A user with a pending password reset: stored hash of secret `sec1`,
expiring at 10000. -/
def resetUser : UserRec :=
  { id := 2, email := "reset@x.com", password := hashPassword "old",
    role := "student", status := "active", passwordChangedAt := none,
    passwordResetToken := some (sha256Hex "sec1"),
    passwordResetExpires := some 10000 }

/-- A live session of the resetting user. -/
def resetSession : Session :=
  { id := 9, userId := 2, refreshTokenHash := hashToken (generateRefreshToken 2 9 0),
    isRevoked := false, expiresAt := 604800000 }

/-- Store for the reset-flow scenarios. -/
def resetDB : DB := { users := [resetUser], sessions := [resetSession] }

/-- `resetUser` after a successful redemption at time 100 with new password
`np`: hash replaced, reset fields cleared, `passwordChangedAt` bumped. -/
def resetUserAfter : UserRec :=
  { resetUser with
    password := hashPassword "np", passwordResetToken := none,
    passwordResetExpires := none, passwordChangedAt := some 100 }

/-- `resetDB` after that redemption: user updated, session revoked. -/
def resetDBAfter : DB :=
  { users := [resetUserAfter],
    sessions := [{ resetSession with isRevoked := true }] }

/-! ## Store lemmas -/

/-- A session found by id carries that id. -/
theorem findSession_id {l : List Session} {sid : Nat} {s : Session}
    (h : findSession l sid = some s) : s.id = sid := by
  have hp := List.find?_some h
  simpa using hp

/-- A session found by id is in the store. -/
theorem findSession_mem {l : List Session} {sid : Nat} {s : Session}
    (h : findSession l sid = some s) : s ∈ l :=
  List.mem_of_find?_eq_some h

/-- Writing a session back and looking it up again returns the written
document, provided some document with that id was present. -/
theorem findSession_save {l : List Session} {sid : Nat} {s : Session}
    (s' : Session) (h : findSession l sid = some s) (hid : s'.id = sid) :
    findSession (saveSessionL l s') sid = some s' := by
  induction l with
  | nil => simp [findSession] at h
  | cons a as ih =>
    by_cases ha : a.id = sid
    · simp only [findSession, saveSessionL, List.map_cons]
      have hhead : (if a.id == s'.id then s' else a) = s' := by
        rw [ha, hid]; simp
      rw [hhead]
      exact List.find?_cons_of_pos _ (by simp [hid])
    · have hne : (a.id == sid) = false := by simpa using ha
      have hne' : (a.id == s'.id) = false := by rw [hid]; exact hne
      have h' : findSession as sid = some s := by
        simp only [findSession] at h
        rw [List.find?_cons_of_neg _ (by simp [hne])] at h
        exact h
      have step : saveSessionL (a :: as) s' = a :: saveSessionL as s' := by
        simp only [saveSessionL, List.map_cons]
        rw [if_neg (show ¬ ((a.id == s'.id) = true) by simp [hne'])]
      rw [step]
      simp only [findSession]
      rw [List.find?_cons_of_neg _ (by simp [hne])]
      exact ih h'

/-- A user found by id carries that id. -/
theorem findUser_id {l : List UserRec} {uid : Nat} {u : UserRec}
    (h : findUser l uid = some u) : u.id = uid := by
  have hp := List.find?_some h
  simpa using hp

/-- A user found by id is in the store. -/
theorem findUser_mem {l : List UserRec} {uid : Nat} {u : UserRec}
    (h : findUser l uid = some u) : u ∈ l :=
  List.mem_of_find?_eq_some h

/-- Writing a user back and looking it up again returns the written
document, provided some document with that id was present. -/
theorem findUser_save {l : List UserRec} {uid : Nat} {u : UserRec}
    (u' : UserRec) (h : findUser l uid = some u) (hid : u'.id = uid) :
    findUser (saveUserL l u') uid = some u' := by
  induction l with
  | nil => simp [findUser] at h
  | cons a as ih =>
    by_cases ha : a.id = uid
    · simp only [findUser, saveUserL, List.map_cons]
      have hhead : (if a.id == u'.id then u' else a) = u' := by
        rw [ha, hid]; simp
      rw [hhead]
      exact List.find?_cons_of_pos _ (by simp [hid])
    · have hne : (a.id == uid) = false := by simpa using ha
      have hne' : (a.id == u'.id) = false := by rw [hid]; exact hne
      have h' : findUser as uid = some u := by
        simp only [findUser] at h
        rw [List.find?_cons_of_neg _ (by simp [hne])] at h
        exact h
      have step : saveUserL (a :: as) u' = a :: saveUserL as u' := by
        simp only [saveUserL, List.map_cons]
        rw [if_neg (show ¬ ((a.id == u'.id) = true) by simp [hne'])]
      rw [step]
      simp only [findUser]
      rw [List.find?_cons_of_neg _ (by simp [hne])]
      exact ih h'

/-- After `logout sid`, any session found under `sid` is revoked. -/
theorem findSession_logout_revoked {db : DB} {sid : Nat} {s' : Session}
    (h : findSession (logout db sid).sessions sid = some s') :
    s'.isRevoked = true := by
  obtain ⟨us, ss⟩ := db
  simp only [logout] at h
  induction ss with
  | nil => simp [findSession] at h
  | cons a as ih =>
    simp only [List.map_cons] at h
    by_cases ha : a.id = sid
    · have hhead : logoutF sid a = { a with isRevoked := true } := by
        simp [logoutF, ha]
      rw [hhead] at h
      simp only [findSession] at h
      rw [List.find?_cons_of_pos _ (by simp [ha])] at h
      injection h with h2
      rw [← h2]
    · have hhead : logoutF sid a = a := by simp [logoutF, ha]
      rw [hhead] at h
      simp only [findSession] at h
      rw [List.find?_cons_of_neg _ (by simpa using ha)] at h
      exact ih h

/-- `logout` is idempotent. -/
theorem logout_idem (db : DB) (sid : Nat) :
    logout (logout db sid) sid = logout db sid := by
  obtain ⟨us, ss⟩ := db
  simp only [logout, List.map_map]
  refine congrArg (DB.mk us) ?_
  apply List.map_congr_left
  intro x _
  by_cases h : x.id = sid <;> simp [Function.comp, logoutF, h]

/-- Writing the same-id user twice collapses to the second write. -/
theorem saveUserL_twice (l : List UserRec) (a b : UserRec) (hid : a.id = b.id) :
    saveUserL (saveUserL l a) b = saveUserL l b := by
  simp only [saveUserL, List.map_map]
  apply List.map_congr_left
  intro x _
  by_cases h : x.id = a.id
  · have hx1 : (x.id == a.id) = true := by simp [h]
    have hab : (a.id == b.id) = true := by simp [hid]
    have hxb : (x.id == b.id) = true := by simp [h, hid]
    simp [Function.comp, hx1, hab, hxb]
  · have h2 : ¬ x.id = b.id := by rw [← hid]; exact h
    simp [Function.comp, h, h2]

/-- Every session of `uid` is revoked after `revokeAllForUserL`. -/
theorem revokeAll_revoked {l : List Session} {uid : Nat} {s : Session}
    (hs : s ∈ revokeAllForUserL l uid) (hu : s.userId = uid) :
    s.isRevoked = true := by
  obtain ⟨x, hx, hfx⟩ := List.mem_map.mp hs
  by_cases h : x.userId = uid
  · rw [← hfx]; simp [h]
  · rw [← hfx] at hu
    simp [h] at hu

/-- Members of the store after a user write-back: either the written
document, or an untouched document whose id differs from the written
one. -/
theorem mem_saveUserL {l : List UserRec} {u v : UserRec}
    (hv : v ∈ saveUserL l u) : v = u ∨ (v ∈ l ∧ v.id ≠ u.id) := by
  obtain ⟨x, hx, hfx⟩ := List.mem_map.mp hv
  by_cases h : (x.id == u.id) = true
  · left
    rw [← hfx, if_pos h]
  · right
    rw [← hfx, if_neg h]
    exact ⟨hx, by simpa using h⟩

/-! ## Reduction lemmas for the service operations -/

/-- A signed, unexpired token verifies to its claims. -/
theorem verifyToken_ok {now : Nat} {t : Token}
    (hval : t.valid = true) (hexp : now < t.claims.exp) :
    verifyToken now t = .ok t.claims := by
  simp [verifyToken, hval, Nat.not_le.mpr hexp]

/-- The check phase succeeds and leaves the store unchanged when the token
is a valid unexpired refresh token for a live session whose stored hash
matches. -/
theorem rotateCheck_ok {db : DB} {now : Nat} {t : Token} {s : Session}
    (hval : t.valid = true) (hexp : now < t.claims.exp)
    (hty : t.claims.tokenType = "refresh")
    (hfind : findSession db.sessions t.claims.sid = some s)
    (hrev : s.isRevoked = false)
    (heq : s.refreshTokenHash = hashToken t) :
    rotateCheck db now t = (.ok s, db) := by
  simp [rotateCheck, verifyToken_ok hval hexp, hty, hfind, hrev, heq]

/-- The check phase detects reuse and revokes the session when the stored
hash differs from the presented token's hash. -/
theorem rotateCheck_reuse {db : DB} {now : Nat} {t : Token} {s : Session}
    (hval : t.valid = true) (hexp : now < t.claims.exp)
    (hty : t.claims.tokenType = "refresh")
    (hfind : findSession db.sessions t.claims.sid = some s)
    (hrev : s.isRevoked = false)
    (hmm : s.refreshTokenHash ≠ hashToken t) :
    rotateCheck db now t = (.error .tokenReuseDetected,
      { db with sessions := saveSessionL db.sessions { s with isRevoked := true } }) := by
  simp [rotateCheck, verifyToken_ok hval hexp, hty, hfind, hrev, hmm]

/-- Full reduction of a successful rotation: the new pair is returned and
the store holds the new refresh hash. -/
theorem refreshTokenImpl_ok {db : DB} {now : Nat} {t : Token} {s : Session}
    {u : UserRec}
    (hval : t.valid = true) (hexp : now < t.claims.exp)
    (hty : t.claims.tokenType = "refresh")
    (hfind : findSession db.sessions t.claims.sid = some s)
    (hrev : s.isRevoked = false)
    (heq : s.refreshTokenHash = hashToken t)
    (huser : findUser db.users t.claims.sub = some u) :
    refreshTokenImpl db now t =
      (.ok { accessToken := generateAccessToken u.id u.role s.id now,
             refreshToken := generateRefreshToken t.claims.sub s.id now },
       { db with sessions := saveSessionL db.sessions { s with
           refreshTokenHash :=
             hashToken (generateRefreshToken t.claims.sub s.id now) } }) := by
  simp only [refreshTokenImpl,
    rotateCheck_ok hval hexp hty hfind hrev heq]
  simp [rotateFinish, huser]

/-- Full reduction of a rotation whose user record is missing: the hash is
replaced, then the call dies with the `TypeError`. -/
theorem refreshTokenImpl_missing_user {db : DB} {now : Nat} {t : Token}
    {s : Session}
    (hval : t.valid = true) (hexp : now < t.claims.exp)
    (hty : t.claims.tokenType = "refresh")
    (hfind : findSession db.sessions t.claims.sid = some s)
    (hrev : s.isRevoked = false)
    (heq : s.refreshTokenHash = hashToken t)
    (huser : findUser db.users t.claims.sub = none) :
    refreshTokenImpl db now t =
      (.error .typeError,
       { db with sessions := saveSessionL db.sessions { s with
           refreshTokenHash :=
             hashToken (generateRefreshToken t.claims.sub s.id now) } }) := by
  simp only [refreshTokenImpl,
    rotateCheck_ok hval hexp hty hfind hrev heq]
  simp [rotateFinish, huser]

/-- Reduction of a successful access-token validation. -/
theorem authMiddleware_ok {db : DB} {now : Nat} {t : Token} {s : Session}
    {u : UserRec}
    (hval : t.valid = true) (hexp : now < t.claims.exp)
    (hty : t.claims.tokenType = "access")
    (hfind : findSession db.sessions t.claims.sid = some s)
    (hrev : s.isRevoked = false)
    (huser : findUser db.users t.claims.sub = some u)
    (hact : u.status = "active") :
    authMiddleware db now (some t) =
      .ok { userId := u.id, role := u.role, sessionId := s.id } := by
  simp [authMiddleware, verifyToken_ok hval hexp, hty, hfind, hrev, huser, hact]

/-! ## Claims -/

/-- C1: for every rotation call where the presented refresh token verifies,
is of type `refresh`, its session exists and is not revoked, but the hash
of the presented token differs from the stored `refreshTokenHash`, the call
fails with `'Token reuse detected'` and the store returned by the call
already holds the session with `isRevoked = true` (the revocation write
happens before the error escapes). -/
theorem c1_reuse_detected_revokes_session (db : DB) (now : Nat) (t : Token)
    (s : Session)
    (hval : t.valid = true) (hexp : now < t.claims.exp)
    (hty : t.claims.tokenType = "refresh")
    (hfind : findSession db.sessions t.claims.sid = some s)
    (hrev : s.isRevoked = false)
    (hmm : s.refreshTokenHash ≠ hashToken t) :
    (refreshTokenImpl db now t).1 = .error .tokenReuseDetected ∧
    findSession (refreshTokenImpl db now t).2.sessions t.claims.sid =
      some { s with isRevoked := true } := by
  have hc := rotateCheck_reuse hval hexp hty hfind hrev hmm
  constructor
  · simp [refreshTokenImpl, hc]
  · simp only [refreshTokenImpl, hc]
    have hid := findSession_id hfind
    exact findSession_save { s with isRevoked := true } hfind hid

/-- Witness for C1: presenting the stale token for session 5 against
`sampleDB` at time 100 errors with reuse detection and the session comes
back revoked. -/
theorem c1_witness :
    (refreshTokenImpl sampleDB 100 staleTok).1 = .error .tokenReuseDetected ∧
    findSession (refreshTokenImpl sampleDB 100 staleTok).2.sessions
      staleTok.claims.sid = some { sampleSession with isRevoked := true } :=
  c1_reuse_detected_revokes_session sampleDB 100 staleTok sampleSession
    (by decide) (by decide) (by decide) (by decide) (by decide) (by decide)

/-- C6: after `logout(sessionId)`, validating any valid unexpired access
token bound to that session fails with `'Session expired'` (the spec's
`SessionRevoked`), regardless of the token's own expiry; and `logout` is
idempotent. -/
theorem c6_logout_blocks_access (db : DB) (now sid : Nat) (t : Token)
    (hval : t.valid = true) (hexp : now < t.claims.exp)
    (hty : t.claims.tokenType = "access")
    (hsid : t.claims.sid = sid) :
    authMiddleware (logout db sid) now (some t) = .error .sessionExpired ∧
    logout (logout db sid) sid = logout db sid := by
  constructor
  · have hv := verifyToken_ok hval hexp
    simp only [authMiddleware, hv]
    cases hfs : findSession (logout db sid).sessions t.claims.sid with
    | none => simp [hty, hfs]
    | some s' =>
      have hsrev : s'.isRevoked = true :=
        findSession_logout_revoked (by rwa [hsid] at hfs)
      simp [hty, hfs, hsrev]
  · exact logout_idem db sid

/-- Counterexample to C3 as stated: in `orphanDB` the presented refresh
token verifies, is of type refresh, its session exists, is not revoked and
holds the matching hash — every hypothesis of C3 — yet the call does not
return a token pair: it dies with the `TypeError` from the unchecked
`User.findById`. -/
theorem c3_counterexample :
    sampleRefreshTok.valid = true ∧
    100 < sampleRefreshTok.claims.exp ∧
    sampleRefreshTok.claims.tokenType = "refresh" ∧
    findSession orphanDB.sessions sampleRefreshTok.claims.sid =
      some sampleSession ∧
    sampleSession.isRevoked = false ∧
    sampleSession.refreshTokenHash = hashToken sampleRefreshTok ∧
    (refreshTokenImpl orphanDB 100 sampleRefreshTok).1 = .error .typeError := by
  decide

/-- C3 amended: under C3's hypotheses *and provided the user record
referenced by the token exists*, rotation returns a new access/refresh pair
both bound to the same session id, and afterwards the stored
`refreshTokenHash` equals the hash of the newly returned refresh token,
with `isRevoked` still false. -/
theorem c3_rotation_success (db : DB) (now : Nat) (t : Token) (s : Session)
    (u : UserRec)
    (hval : t.valid = true) (hexp : now < t.claims.exp)
    (hty : t.claims.tokenType = "refresh")
    (hfind : findSession db.sessions t.claims.sid = some s)
    (hrev : s.isRevoked = false)
    (heq : s.refreshTokenHash = hashToken t)
    (huser : findUser db.users t.claims.sub = some u) :
    ∃ pair : TokenPair,
      (refreshTokenImpl db now t).1 = .ok pair ∧
      pair.accessToken.claims.sid = t.claims.sid ∧
      pair.refreshToken.claims.sid = t.claims.sid ∧
      pair.accessToken.claims.tokenType = "access" ∧
      pair.refreshToken.claims.tokenType = "refresh" ∧
      findSession (refreshTokenImpl db now t).2.sessions t.claims.sid =
        some { s with refreshTokenHash := hashToken pair.refreshToken } ∧
      ({ s with refreshTokenHash := hashToken pair.refreshToken } :
        Session).isRevoked = false := by
  have hr := refreshTokenImpl_ok hval hexp hty hfind hrev heq huser
  have hid := findSession_id hfind
  refine ⟨{ accessToken := generateAccessToken u.id u.role s.id now,
            refreshToken := generateRefreshToken t.claims.sub s.id now },
          ?_, ?_, ?_, rfl, rfl, ?_, ?_⟩
  · rw [hr]
  · simpa [generateAccessToken] using hid
  · simpa [generateRefreshToken] using hid
  · rw [hr]
    exact findSession_save
      { s with refreshTokenHash :=
          hashToken (generateRefreshToken t.claims.sub s.id now) } hfind hid
  · simpa using hrev

/-- Witness for C3 (amended): rotating `sampleRefreshTok` against
`sampleDB` at time 100. -/
theorem c3_witness :
    ∃ pair : TokenPair,
      (refreshTokenImpl sampleDB 100 sampleRefreshTok).1 = .ok pair ∧
      pair.accessToken.claims.sid = sampleRefreshTok.claims.sid ∧
      pair.refreshToken.claims.sid = sampleRefreshTok.claims.sid ∧
      pair.accessToken.claims.tokenType = "access" ∧
      pair.refreshToken.claims.tokenType = "refresh" ∧
      findSession (refreshTokenImpl sampleDB 100 sampleRefreshTok).2.sessions
        sampleRefreshTok.claims.sid =
        some { sampleSession with
                 refreshTokenHash := hashToken pair.refreshToken } ∧
      ({ sampleSession with refreshTokenHash := hashToken pair.refreshToken } :
        Session).isRevoked = false :=
  c3_rotation_success sampleDB 100 sampleRefreshTok sampleSession sampleUser
    (by decide) (by decide) (by decide) (by decide) (by decide) (by decide)
    (by decide)

/-- C10: in a rotation that passes the hash comparison, the stored hash is
replaced by the hash of the freshly minted refresh token *before* the user
record is loaded; when the user record is missing the call fails with the
out-of-taxonomy `TypeError`, the presented refresh token has already been
invalidated (the stored hash no longer matches it), and the replacement
token is never returned to the caller. -/
theorem c10_missing_user_mutates_then_errors (db : DB) (now : Nat)
    (t : Token) (s : Session)
    (hval : t.valid = true) (hexp : now < t.claims.exp)
    (hty : t.claims.tokenType = "refresh")
    (hfind : findSession db.sessions t.claims.sid = some s)
    (hrev : s.isRevoked = false)
    (heq : s.refreshTokenHash = hashToken t)
    (huser : findUser db.users t.claims.sub = none)
    (hiat : t.claims.iat ≠ now) :
    (refreshTokenImpl db now t).1 = .error .typeError ∧
    findSession (refreshTokenImpl db now t).2.sessions t.claims.sid =
      some { s with refreshTokenHash :=
               hashToken (generateRefreshToken t.claims.sub s.id now) } ∧
    hashToken (generateRefreshToken t.claims.sub s.id now) ≠ hashToken t := by
  have hr := refreshTokenImpl_missing_user hval hexp hty hfind hrev heq huser
  have hid := findSession_id hfind
  refine ⟨by rw [hr], ?_, ?_⟩
  · rw [hr]
    exact findSession_save
      { s with refreshTokenHash :=
          hashToken (generateRefreshToken t.claims.sub s.id now) } hfind hid
  · intro hcontra
    have htok : generateRefreshToken t.claims.sub s.id now = t := by
      simpa [hashToken] using hcontra
    have h2 := congrArg (fun tok => tok.claims.iat) htok
    exact hiat h2.symm

/-- Witness for C10: rotating the matching token of `orphanDB`'s session at
time 100 mutates the store and then errors. -/
theorem c10_witness :
    (refreshTokenImpl orphanDB 100 sampleRefreshTok).1 = .error .typeError ∧
    findSession (refreshTokenImpl orphanDB 100 sampleRefreshTok).2.sessions
      sampleRefreshTok.claims.sid =
      some { sampleSession with refreshTokenHash := hashToken (generateRefreshToken sampleRefreshTok.claims.sub sampleSession.id 100) } ∧
    hashToken (generateRefreshToken sampleRefreshTok.claims.sub
      sampleSession.id 100) ≠ hashToken sampleRefreshTok :=
  c10_missing_user_mutates_then_errors orphanDB 100 sampleRefreshTok
    sampleSession (by decide) (by decide) (by decide) (by decide) (by decide)
    (by decide) (by decide) (by decide)

/-- C2 fails on the code: the hash comparison and the hash write are *not*
one atomic compare-and-swap.  Both `Session.findById` and `session.save()`
are separate awaited round trips, so two concurrent rotation calls can both
run the check phase against the same store snapshot before either write
phase runs (schedule: load₁, load₂, save₁, save₂ — exactly the retry race
of §4.4).  Evaluating that schedule on `sampleDB` with the currently valid
token: both checks pass, both writes succeed (there is no
`RotationConflict` anywhere in the code), the second write silently
overwrites the first, and the first caller's freshly issued refresh token
then triggers the destructive `'Token reuse detected'` revocation on its
next legitimate use. -/
theorem c2_rotation_race :
    (rotateCheck sampleDB 100 sampleRefreshTok).1 = .ok sampleSession ∧
    (rotateCheck sampleDB 101 sampleRefreshTok).1 = .ok sampleSession ∧
    (rotateFinish sampleDB 100 1 sampleSession).1 =
      .ok { accessToken := generateAccessToken 1 "student" 5 100,
            refreshToken := generateRefreshToken 1 5 100 } ∧
    (rotateFinish (rotateFinish sampleDB 100 1 sampleSession).2
        101 1 sampleSession).1 =
      .ok { accessToken := generateAccessToken 1 "student" 5 101,
            refreshToken := generateRefreshToken 1 5 101 } ∧
    findSession (rotateFinish (rotateFinish sampleDB 100 1 sampleSession).2
        101 1 sampleSession).2.sessions 5 =
      some { sampleSession with refreshTokenHash := hashToken (generateRefreshToken 1 5 101) } ∧
    (refreshTokenImpl (rotateFinish (rotateFinish sampleDB 100 1 sampleSession).2
        101 1 sampleSession).2 102 (generateRefreshToken 1 5 100)).1 =
      .error .tokenReuseDetected := by
  decide

/-- C4 fails on the code: a successful `changePassword` by user 1, who is
authenticated on session 5 and correctly presents the current password,
revokes *both* of the user's sessions — the caller's session 5 included —
because `user.currentSessionId` is never populated and the
`$ne: undefined` filter matches every session. -/
theorem c4_changePassword_revokes_caller :
    (changePassword twoSessionDB 1000 1 "pw1" "newpw").1 =
      .ok { success := true, message := "Password changed successfully" } ∧
    findSession (changePassword twoSessionDB 1000 1 "pw1" "newpw").2.sessions 5 =
      some { sampleSession with isRevoked := true } ∧
    findSession (changePassword twoSessionDB 1000 1 "pw1" "newpw").2.sessions 6 =
      some { otherSession with isRevoked := true } := by
  decide

/-- Counterexample to C9 as stated: at time 100 session 7's `expiresAt`
(50) has passed, the record still physically exists and `isRevoked` is
false — and both lookups *accept* it: access-token validation succeeds and
refresh-token rotation succeeds.  Neither operation checks `expiresAt`. -/
theorem c9_counterexample :
    expiredSession.expiresAt < 100 ∧
    expiredSession.isRevoked = false ∧
    findSession expiredDB.sessions 7 = some expiredSession ∧
    authMiddleware expiredDB 100 (some expiredSessAccessTok) =
      .ok { userId := 1, role := "student", sessionId := 7 } ∧
    (refreshTokenImpl expiredDB 100 expiredSessRefreshTok).1 =
      .ok { accessToken := generateAccessToken 1 "student" 7 100,
            refreshToken := generateRefreshToken 1 7 100 } := by
  decide

/-- C9 amended: neither access-token validation nor rotation checks
`expiresAt`; an expired session is accepted as long as its record
physically exists with `isRevoked = false`, and is rejected (with
`'Session expired'`) only once the store's TTL sweep has erased the
record. -/
theorem c9_expiry_only_via_sweep (db : DB) (now : Nat) (ta tr : Token)
    (s : Session) (u : UserRec)
    (hsexp : s.expiresAt ≤ now)
    (hvalA : ta.valid = true) (hexpA : now < ta.claims.exp)
    (htyA : ta.claims.tokenType = "access")
    (hfind : findSession db.sessions ta.claims.sid = some s)
    (hrev : s.isRevoked = false)
    (huserA : findUser db.users ta.claims.sub = some u)
    (hact : u.status = "active")
    (hvalR : tr.valid = true) (hexpR : now < tr.claims.exp)
    (htyR : tr.claims.tokenType = "refresh")
    (hsidR : tr.claims.sid = ta.claims.sid)
    (heq : s.refreshTokenHash = hashToken tr)
    (huserR : findUser db.users tr.claims.sub = some u)
    (hall : ∀ x ∈ db.sessions, x.id = ta.claims.sid → x.expiresAt ≤ now) :
    authMiddleware db now (some ta) =
      .ok { userId := u.id, role := u.role, sessionId := s.id } ∧
    (refreshTokenImpl db now tr).1 =
      .ok { accessToken := generateAccessToken u.id u.role s.id now,
            refreshToken := generateRefreshToken tr.claims.sub s.id now } ∧
    authMiddleware (ttlSweep db now) now (some ta) = .error .sessionExpired ∧
    (refreshTokenImpl (ttlSweep db now) now tr).1 = .error .sessionExpired := by
  have hfindR : findSession db.sessions tr.claims.sid = some s := by
    rwa [hsidR]
  have hnone : findSession (ttlSweep db now).sessions ta.claims.sid = none := by
    simp only [findSession, ttlSweep, List.find?_eq_none]
    intro x hx
    have hmem := List.mem_filter.mp hx
    intro hbeq
    have hid : x.id = ta.claims.sid := by simpa using hbeq
    have hle : x.expiresAt ≤ now := hall x hmem.1 hid
    have hlt : now < x.expiresAt := by simpa using hmem.2
    exact absurd hle (Nat.not_le.mpr hlt)
  have hnoneR : findSession (ttlSweep db now).sessions tr.claims.sid = none := by
    rwa [hsidR]
  refine ⟨authMiddleware_ok hvalA hexpA htyA hfind hrev huserA hact,
          ?_, ?_, ?_⟩
  · rw [refreshTokenImpl_ok hvalR hexpR htyR hfindR hrev heq huserR]
  · simp [authMiddleware, verifyToken_ok hvalA hexpA, htyA, hnone]
  · simp [refreshTokenImpl, rotateCheck, verifyToken_ok hvalR hexpR, htyR,
      hnoneR]

/-- Witness for C9 (amended): `expiredDB` at time 100 with the tokens of
session 7: both operations accept the expired session; after the TTL sweep
erases it, both reject with `'Session expired'`. -/
theorem c9_witness :
    authMiddleware expiredDB 100 (some expiredSessAccessTok) =
      .ok { userId := sampleUser.id, role := sampleUser.role,
            sessionId := expiredSession.id } ∧
    (refreshTokenImpl expiredDB 100 expiredSessRefreshTok).1 =
      .ok { accessToken := generateAccessToken sampleUser.id sampleUser.role expiredSession.id 100,
            refreshToken := generateRefreshToken expiredSessRefreshTok.claims.sub expiredSession.id 100 } ∧
    authMiddleware (ttlSweep expiredDB 100) 100 (some expiredSessAccessTok) =
      .error .sessionExpired ∧
    (refreshTokenImpl (ttlSweep expiredDB 100) 100 expiredSessRefreshTok).1 =
      .error .sessionExpired :=
  c9_expiry_only_via_sweep expiredDB 100 expiredSessAccessTok
    expiredSessRefreshTok expiredSession sampleUser
    (by decide) (by decide) (by decide) (by decide) (by decide) (by decide)
    (by decide) (by decide) (by decide) (by decide) (by decide) (by decide)
    (by decide) (by decide) (by decide)

/-- Counterexample to C7 as stated: when the email collaborator fails, the
existing-user path does *not* return the generic success — it throws
`'Failed to send reset email...'`, while the nonexistent-email path still
returns the generic success, so the two responses differ. -/
theorem c7_counterexample :
    (forgotPassword sampleDB 0 "sec9" false "real@x.com").result =
      .error .emailSendFailed ∧
    (forgotPassword sampleDB 0 "sec9" false "nonexistent@x.com").result =
      .ok genericForgotResponse := by
  decide

/-- C7 amended: the nonexistent-email path always returns the generic
success response after the 500 ms artificial delay, and the existing-user
path returns the *identical* generic success content whenever the email
send succeeds; when the email send fails, the existing-user path errors
instead. -/
theorem c7_uniform_response (db dbE : DB) (now nowE : Nat)
    (secret secretE email emailE : String) (eok : Bool) (u : UserRec)
    (hnone : db.users.find? (emailActiveMatch email) = none)
    (hsome : dbE.users.find? (emailActiveMatch emailE) = some u) :
    (forgotPassword db now secret eok email).result =
      .ok genericForgotResponse ∧
    (forgotPassword db now secret eok email).delayMs = 500 ∧
    (forgotPassword dbE nowE secretE true emailE).result =
      .ok genericForgotResponse := by
  refine ⟨?_, ?_, ?_⟩ <;> simp [forgotPassword, hnone, hsome]

/-- Witness for C7 (amended): `no@x.com` has no account in `sampleDB`,
`real@x.com` has one; both calls resolve with the same generic content. -/
theorem c7_witness :
    (forgotPassword sampleDB 3 "s1" true "no@x.com").result =
      .ok genericForgotResponse ∧
    (forgotPassword sampleDB 3 "s1" true "no@x.com").delayMs = 500 ∧
    (forgotPassword sampleDB 7 "s2" true "real@x.com").result =
      .ok genericForgotResponse :=
  c7_uniform_response sampleDB sampleDB 3 7 "s1" "s2" "no@x.com" "real@x.com"
    true sampleUser (by decide) (by decide)

/-- C8: if the email send fails during `forgotPassword` for an existing
active user, the stored reset hash and expiry are rolled back: afterwards
no user in the store holds the secret's hash, and redeeming the secret
fails with `'Invalid or expired reset token'`. -/
theorem c8_email_failure_rolls_back (db : DB) (now now2 : Nat)
    (secret np email : String) (u : UserRec)
    (hfind : db.users.find? (emailActiveMatch email) = some u)
    (hfresh : ∀ v ∈ db.users, v.passwordResetToken ≠ some (sha256Hex secret)) :
    (forgotPassword db now secret false email).result =
      .error .emailSendFailed ∧
    (∀ v ∈ (forgotPassword db now secret false email).db.users,
        v.passwordResetToken ≠ some (sha256Hex secret)) ∧
    (resetPassword (forgotPassword db now secret false email).db
        now2 secret np).1 = .error .invalidResetToken := by
  have husers : (forgotPassword db now secret false email).db.users =
      saveUserL db.users { u with passwordResetToken := none, passwordResetExpires := none } := by
    simp only [forgotPassword, hfind]
    exact saveUserL_twice db.users _ _ rfl
  have h2 : ∀ v ∈ (forgotPassword db now secret false email).db.users,
      v.passwordResetToken ≠ some (sha256Hex secret) := by
    intro v hv
    rw [husers] at hv
    rcases mem_saveUserL hv with rfl | ⟨hvl, _⟩
    · simp
    · exact hfresh v hvl
  refine ⟨?_, h2, ?_⟩
  · simp [forgotPassword, hfind]
  · have hnone : (forgotPassword db now secret false email).db.users.find?
        (resetMatch now2 (sha256Hex secret)) = none := by
      rw [List.find?_eq_none]
      intro x hx
      simp [resetMatch, h2 x hx]
    simp [resetPassword, hnone]

/-- Witness for C8: `forgotPassword` for `real@x.com` with a failing email
sender leaves no redeemable token behind. -/
theorem c8_witness :
    (forgotPassword sampleDB 0 "fresh1" false "real@x.com").result =
      .error .emailSendFailed ∧
    (∀ v ∈ (forgotPassword sampleDB 0 "fresh1" false "real@x.com").db.users,
        v.passwordResetToken ≠ some (sha256Hex "fresh1")) ∧
    (resetPassword (forgotPassword sampleDB 0 "fresh1" false "real@x.com").db
        60 "fresh1" "np").1 = .error .invalidResetToken :=
  c8_email_failure_rolls_back sampleDB 0 60 "fresh1" "np" "real@x.com"
    sampleUser (by decide) (by decide)

/-- C5: redeeming a reset token succeeds at most once.  If a redemption
succeeds (replacing the password hash, clearing the reset fields, bumping
`passwordChangedAt`, and revoking every session of the user), then a
second redemption presenting the identical token fails with
`'Invalid or expired reset token'`.  The uniqueness hypothesis states that
at most one user stores the token's hash — guaranteed in practice by the
256-bit entropy of the secret. -/
theorem c5_reset_single_use (db : DB) (now now2 : Nat)
    (token np np2 : String) (r : ServiceResponse) (db1 : DB)
    (huniq : ∀ u ∈ db.users, ∀ v ∈ db.users,
        u.passwordResetToken = some (sha256Hex token) →
        v.passwordResetToken = some (sha256Hex token) → u.id = v.id)
    (h1 : resetPassword db now token np = (.ok r, db1)) :
    (resetPassword db1 now2 token np2).1 = .error .invalidResetToken ∧
    ∃ u ∈ db.users,
      u.passwordResetToken = some (sha256Hex token) ∧
      (∀ s ∈ db1.sessions, s.userId = u.id → s.isRevoked = true) ∧
      ∃ u2, findUser db1.users u.id = some u2 ∧
        u2.password = hashPassword np ∧
        u2.passwordChangedAt = some now ∧
        u2.passwordResetToken = none ∧
        u2.passwordResetExpires = none := by
  cases hfind : db.users.find? (resetMatch now (sha256Hex token)) with
  | none => simp [resetPassword, hfind] at h1
  | some user =>
    have hueq : user.passwordResetToken = some (sha256Hex token) := by
      have hp := List.find?_some hfind
      simp [resetMatch] at hp
      exact hp.1.1
    have humem : user ∈ db.users := List.mem_of_find?_eq_some hfind
    have hpair : resetPassword db now token np =
        (.ok { success := true,
               message := "Password reset successful. Please login with your new password." },
         { db with
            users := saveUserL db.users { user with password := hashPassword np, passwordResetToken := none, passwordResetExpires := none, passwordChangedAt := some now },
            sessions := revokeAllForUserL db.sessions user.id }) := by
      simp [resetPassword, hfind]
    rw [hpair] at h1
    have hdb1 : db1 = { db with
        users := saveUserL db.users { user with password := hashPassword np, passwordResetToken := none, passwordResetExpires := none, passwordChangedAt := some now },
        sessions := revokeAllForUserL db.sessions user.id } :=
      (congrArg Prod.snd h1).symm
    subst hdb1
    refine ⟨?_, user, humem, hueq, ?_, ?_⟩
    · have hnone2 : (saveUserL db.users { user with password := hashPassword np, passwordResetToken := none, passwordResetExpires := none, passwordChangedAt := some now }).find?
          (resetMatch now2 (sha256Hex token)) = none := by
        rw [List.find?_eq_none]
        intro x hx
        rcases mem_saveUserL hx with rfl | ⟨hxl, hxid⟩
        · simp [resetMatch]
        · by_cases hxt : x.passwordResetToken = some (sha256Hex token)
          · exact absurd (huniq x hxl user humem hxt hueq) hxid
          · simp [resetMatch, hxt]
      simp [resetPassword, hnone2]
    · intro s hs hsu
      exact revokeAll_revoked hs hsu
    · have hex : (findUser db.users user.id).isSome := by
        rw [findUser, List.find?_isSome]
        exact ⟨user, humem, by simp⟩
      obtain ⟨w, hw⟩ := Option.isSome_iff_exists.mp hex
      refine ⟨{ user with password := hashPassword np, passwordResetToken := none, passwordResetExpires := none, passwordChangedAt := some now },
              ?_, rfl, rfl, rfl, rfl⟩
      exact findUser_save _ hw rfl

/-- Witness for C5: the pending reset in `resetDB` is redeemed once at time
100; re-presenting `sec1` at time 200 fails. -/
theorem c5_witness :
    (resetPassword resetDBAfter 200 "sec1" "np2").1 =
      .error .invalidResetToken ∧
    ∃ u ∈ resetDB.users,
      u.passwordResetToken = some (sha256Hex "sec1") ∧
      (∀ s ∈ resetDBAfter.sessions, s.userId = u.id → s.isRevoked = true) ∧
      ∃ u2, findUser resetDBAfter.users u.id = some u2 ∧
        u2.password = hashPassword "np" ∧
        u2.passwordChangedAt = some 100 ∧
        u2.passwordResetToken = none ∧
        u2.passwordResetExpires = none :=
  c5_reset_single_use resetDB 100 200 "sec1" "np" "np2"
    { success := true,
      message := "Password reset successful. Please login with your new password." }
    resetDBAfter (by decide) (by decide)

/-- Witness for C6: logging out session 5 of `sampleDB` blocks the (still
unexpired) access token bound to it, and a second logout is a no-op. -/
theorem c6_witness :
    authMiddleware (logout sampleDB 5) 100 (some sampleAccessTok) =
      .error .sessionExpired ∧
    logout (logout sampleDB 5) 5 = logout sampleDB 5 :=
  c6_logout_blocks_access sampleDB 100 5 sampleAccessTok
    (by decide) (by decide) (by decide) (by decide)

end AuthCore
